import Mathlib

/-!
Verification development for the firehose monitor of SkyBots
(src/firehose_monitor.py). The Python code is shallowly embedded: decoded
records are a generic structured value (`Val`), Python dictionary access,
truthiness, iteration and substring tests are modelled by total functions
returning `Except` where the Python code can raise, and the message handler
is a pure function from a parsed message to the file write, emitted lines,
logged errors and number of container-decode invocations it performs.
-/

/-- A decoded record value, as produced by decoding a CBOR block of the CAR
container: Python dicts become `obj` (an ordered association list), lists
become `arr`, and binary leaves become `bytes`. Mirrors the untyped values
`car.blocks.get(op.cid)` yields in src/firehose_monitor.py line 85. -/
inductive Val where
  | null : Val
  | bool : Bool → Val
  | num : Int → Val
  | str : String → Val
  | bytes : List Nat → Val
  | arr : List Val → Val
  | obj : List (String × Val) → Val
deriving Repr

/-- First-match lookup in an association list, the semantics of a Python
dict built by CBOR decoding (first-wins for duplicate keys). -/
def assocGet : List (String × Val) → String → Option Val
  | [], _ => none
  | (k, v) :: rest, key => if k = key then some v else assocGet rest key

/-- Python truthiness of a value (`if reply:`, `if not record_raw:`):
None, False, 0, empty string, empty bytes, empty list and empty dict are
falsy, everything else truthy. -/
def Val.truthy : Val → Bool
  | .null => false
  | .bool b => b
  | .num n => n != 0
  | .str s => s ≠ ""
  | .bytes bs => !bs.isEmpty
  | .arr l => !l.isEmpty
  | .obj kvs => !kvs.isEmpty

/-- Python `d.get(k)`: `None` when the key is absent; raises
AttributeError when `d` is not a dict. -/
def Val.pyGet : Val → String → Except String Val
  | .obj kvs, k => .ok ((assocGet kvs k).getD .null)
  | _, _ => .error "AttributeError: object has no attribute get"

/-- Python `d.get(k, default)`: the default when the key is absent; raises
AttributeError when `d` is not a dict. -/
def Val.pyGetD : Val → String → Val → Except String Val
  | .obj kvs, k, d => .ok ((assocGet kvs k).getD d)
  | _, _, _ => .error "AttributeError: object has no attribute get"

/-- Python `==` between a value and a string literal: true exactly when the
value is that string (values of other types compare unequal, as in Python). -/
def Val.eqStr : Val → String → Bool
  | .str s, t => s = t
  | _, _ => false

/-- True when the first character list occurs contiguously inside the
second. -/
def charsContain (needle : List Char) : List Char → Bool
  | [] => needle.isEmpty
  | c :: rest => needle.isPrefixOf (c :: rest) || charsContain needle rest

/-- Substring containment on strings, the semantics of Python
`needle in hay` for `str` operands. -/
def strContainsSub (hay needle : String) : Bool :=
  charsContain needle.data hay.data

/-- Python `s.startswith(pre)`. -/
def strStartsWith (s pre : String) : Bool :=
  pre.data.isPrefixOf s.data

/-- ASCII whitespace, the characters Python `str.strip()` removes for the
contents a cursor file can hold. -/
def isSpaceChar (c : Char) : Bool :=
  c = ' ' || c = '\t' || c = '\n' || c = '\r'

/-- Python `s.strip()`: remove leading and trailing whitespace. -/
def pyStrip (s : String) : String :=
  String.mk (((s.data.dropWhile isSpaceChar).reverse.dropWhile isSpaceChar).reverse)

/-- Python `needle in hay` where `needle` is a string (the bot DID): a
substring test on strings, membership on lists, key membership on dicts,
and a TypeError on the remaining types. -/
def pyInV (needle : String) (hay : Val) : Except String Bool :=
  match hay with
  | .str h => .ok (strContainsSub h needle)
  | .arr l => .ok (l.any (fun v => v.eqStr needle))
  | .obj kvs => .ok (kvs.any (fun kv => kv.1 = needle))
  | _ => .error "TypeError: argument of type is not iterable"

/-- Python `for x in v`: iterating a list yields its elements, a string its
characters (as one-character strings), a dict its keys; other values raise
TypeError. -/
def pyIter : Val → Except String (List Val)
  | .arr l => .ok l
  | .str s => .ok (s.data.map (fun c => .str (String.mk [c])))
  | .obj kvs => .ok (kvs.map (fun kv => .str kv.1))
  | _ => .error "TypeError: object is not iterable"

/-- Reply detection, src/firehose_monitor.py lines 92-97: fetch `reply`,
and when truthy test whether the bot DID occurs as a substring of
`reply.get('parent', \x7b\x7d).get('uri', '')`. -/
def computeIsReply (recordRaw : Val) (botDid : String) : Except String Bool := do
  let reply ← recordRaw.pyGet "reply"
  if reply.truthy then
    let parent ← reply.pyGetD "parent" (.obj [])
    let parentUri ← parent.pyGetD "uri" (.str "")
    pyInV botDid parentUri
  else
    pure false

/-- One feature of one facet, src/firehose_monitor.py line 106: the feature
is a mention of the bot when its `$type` is the mention feature type and its
`did` equals the bot DID (the second lookup is only reached when the first
test passes, as with Python `and`). -/
def featureIsMention (feature : Val) (botDid : String) : Except String Bool := do
  let t ← feature.pyGet "$type"
  if t.eqStr "app.bsky.richtext.facet#mention" then
    let d ← feature.pyGet "did"
    pure (d.eqStr botDid)
  else
    pure false

/-- Inner loop over the features of one facet, lines 105-108, with the
`break` on the first mention found. -/
def anyMentionFeature (features : List Val) (botDid : String) : Except String Bool :=
  match features with
  | [] => pure false
  | f :: rest => do
      if (← featureIsMention f botDid) then pure true
      else anyMentionFeature rest botDid

/-- Outer loop over the facets, lines 104-110, with the `break` once a
mention was found. -/
def anyMentionFacet (facets : List Val) (botDid : String) : Except String Bool :=
  match facets with
  | [] => pure false
  | facet :: rest => do
      let features ← pyIter (← facet.pyGetD "features" (.arr []))
      if (← anyMentionFeature features botDid) then pure true
      else anyMentionFacet rest botDid

/-- Mention detection, lines 100-110: `text` is fetched (and unused, as in
the source), then the facets are scanned for a mention feature of the bot. -/
def computeIsMention (recordRaw : Val) (botDid : String) : Except String Bool := do
  let _text ← recordRaw.pyGetD "text" (.str "")
  let facets ← recordRaw.pyGetD "facets" (.arr [])
  anyMentionFacet (← pyIter facets) botDid

/-- Quote detection, lines 113-118: the embed is a record embed whose
`record.uri` contains the bot DID as a substring. -/
def computeIsQuote (recordRaw : Val) (botDid : String) : Except String Bool := do
  let embed ← recordRaw.pyGetD "embed" (.obj [])
  let t ← embed.pyGet "$type"
  if t.eqStr "app.bsky.embed.record" then
    let r ← embed.pyGetD "record" (.obj [])
    let recordUri ← r.pyGetD "uri" (.str "")
    pyInV botDid recordUri
  else
    pure false

/-- A classified event, the dict literal of src/firehose_monitor.py lines
130-140. -/
structure Event where
  type : String
  uri : String
  cid : String
  authorDid : String
  record : Val
  reason : String
deriving Repr

/-- Classification and event construction for one decoded record, lines
92-140 of the handler: the three detection booleans are computed in source
order (reply, mention, quote); when at least one holds the reason is picked
with precedence mention, then quote, then reply, and the event dict is
built. Returns `none` when the record matches no rule. -/
def processRecord (recordRaw : Val) (botDid repo path cid : String) :
    Except String (Option Event) := do
  let isReply ← computeIsReply recordRaw botDid
  let isMention ← computeIsMention recordRaw botDid
  let isQuote ← computeIsQuote recordRaw botDid
  if isReply || isMention || isQuote then
    let reason := if isMention then "mention" else if isQuote then "quote" else "reply"
    pure (some { type := "firehose_mention"
                 uri := "at://" ++ repo ++ "/" ++ path
                 cid := cid
                 authorDid := repo
                 record := recordRaw
                 reason := reason })
  else
    pure none

/-- JSON string quoting as performed by `json.dumps` (escaping restricted
to backslash and double quote; no claim depends on the escaping of other
characters). -/
def jsonQuote (s : String) : String :=
  "\"" ++ String.join (s.data.map (fun c =>
    if c = '\\' then "\\\\" else if c = '"' then "\\\"" else String.mk [c])) ++ "\""

/-- Error message raised by Python `json.dumps` on a bytes value. -/
def bytesErrMsg : String := "TypeError: Object of type bytes is not JSON serializable"

mutual
/-- Python `json.dumps` modelled on `Val`: total on null, booleans,
numbers and strings; raises TypeError on a bytes leaf (json.dumps performs
no hex conversion); recurses into lists and dicts. -/
def jsonDumps : Val → Except String String
  | .null => .ok "null"
  | .bool true => .ok "true"
  | .bool false => .ok "false"
  | .num n => .ok (toString n)
  | .str s => .ok (jsonQuote s)
  | .bytes _ => .error bytesErrMsg
  | .arr l => do
      let parts ← jsonDumpsList l
      .ok ("[" ++ String.intercalate ", " parts ++ "]")
  | .obj kvs => do
      let parts ← jsonDumpsObj kvs
      .ok ("\x7b" ++ String.intercalate ", " parts ++ "\x7d")

/-- Serialization of the elements of a JSON array, in order, failing on the
first non-serializable element. -/
def jsonDumpsList : List Val → Except String (List String)
  | [] => .ok []
  | v :: rest => do
      let s ← jsonDumps v
      let r ← jsonDumpsList rest
      .ok (s :: r)

/-- Serialization of the entries of a JSON object, in order, failing on the
first non-serializable value. -/
def jsonDumpsObj : List (String × Val) → Except String (List String)
  | [] => .ok []
  | kv :: rest => do
      let s ← jsonDumps kv.2
      let r ← jsonDumpsObj rest
      .ok ((jsonQuote kv.1 ++ ": " ++ s) :: r)
end

mutual
/-- True when the value is, or contains at any depth, a binary leaf. -/
def Val.hasBin : Val → Bool
  | .bytes _ => true
  | .arr l => hasBinList l
  | .obj kvs => hasBinObj kvs
  | _ => false

/-- True when some element of the list contains a binary leaf. -/
def hasBinList : List Val → Bool
  | [] => false
  | v :: rest => v.hasBin || hasBinList rest

/-- True when some entry value of the object contains a binary leaf. -/
def hasBinObj : List (String × Val) → Bool
  | [] => false
  | kv :: rest => kv.2.hasBin || hasBinObj rest
end

/-- The event dict of lines 130-140 as a `Val`, the argument the handler
passes to `json.dumps`. -/
def eventToVal (e : Event) : Val :=
  .obj [("type", .str e.type),
        ("uri", .str e.uri),
        ("cid", .str e.cid),
        ("author", .obj [("did", .str e.authorDid), ("handle", .null)]),
        ("record", e.record),
        ("reason", .str e.reason)]

/-- One repository operation of a commit envelope (`op` in the handler):
action, path and content id (the content id doubles as the block lookup key
and as the `str(op.cid)` the event carries). -/
structure Op where
  action : String
  path : String
  cid : String
deriving Repr

/-- A commit envelope (`models.ComAtprotoSyncSubscribeRepos.Commit`):
sequence number, repository DID, operations and the raw CAR container
bytes. -/
structure Commit where
  seq : Nat
  repo : String
  ops : List Op
  blocks : List Nat
deriving Repr

/-- Result of `parse_subscribe_repos_message`: either a commit envelope or
some other message type, for which the `isinstance` test of line 49 fails. -/
inductive Message where
  | commit : Commit → Message
  | other : Message
deriving Repr

/-- The CAR container decoder (`CAR.from_bytes` of the atproto library,
external to this repository): takes the container bytes to a mapping from
content id to decoded record, or raises on a malformed container. The
handler is parameterized over it. -/
def CarDecoder : Type := List Nat → Except String (List (String × Val))

/-- Processing of one qualifying create operation, lines 84-141 of the
handler body (inside the `try`): decode the container, look the record up
by content id (`continue` when absent or falsy), classify, and serialize
the event when one is built. Returns the emitted line, `none` when the
operation is skipped or unmatched, and an error when any step raises. -/
def processOp (carDecode : CarDecoder) (botDid : String) (c : Commit) (op : Op) :
    Except String (Option String) := do
  let blockMap ← carDecode c.blocks
  let recordRaw := (assocGet blockMap op.cid).getD .null
  if !recordRaw.truthy then
    pure none
  else do
    match (← processRecord recordRaw botDid c.repo op.path op.cid) with
    | none => pure none
    | some ev => do
        let line ← jsonDumps (eventToVal ev)
        pure (some line)

/-- The operation loop of the handler, lines 56-144: operations whose
action is not `create` or whose path is outside the post collection are
skipped before the `try`; for each remaining operation the container is
decoded (one `CAR.from_bytes` call each) and an exception is caught and
logged. Returns the emitted stdout lines, the stderr error lines and the
number of `CAR.from_bytes` invocations, in source order. -/
def runOps (carDecode : CarDecoder) (botDid : String) (c : Commit) :
    List Op → List String × List String × Nat
  | [] => ([], [], 0)
  | op :: rest =>
      if op.action ≠ "create" then runOps carDecode botDid c rest
      else if !strStartsWith op.path "app.bsky.feed.post/" then runOps carDecode botDid c rest
      else
        let (es, errs, n) := runOps carDecode botDid c rest
        match processOp carDecode botDid c op with
        | .ok none => (es, errs, n + 1)
        | .ok (some line) => (line :: es, errs, n + 1)
        | .error e => (es, ("Error processing firehose event: " ++ e) :: errs, n + 1)

/-- Observable outcome of one `on_message_handler` invocation: the content
written to the cursor file (if any), the stdout lines emitted, the stderr
error lines, and the number of container-decode calls performed. -/
structure HandlerResult where
  cursorFileWrite : Option String
  emitted : List String
  errors : List String
  decodeCalls : Nat
deriving Repr

/-- The message handler `on_message_handler`, lines 47-144: a non-commit
message returns immediately (line 50) with no side effect; a commit first
overwrites the cursor file with `str(commit.seq)` (lines 53-54) and then
runs the operation loop. -/
def onMessageHandler (carDecode : CarDecoder) (botDid : String) :
    Message → HandlerResult
  | .other => { cursorFileWrite := none, emitted := [], errors := [], decodeCalls := 0 }
  | .commit c =>
      let (es, errs, n) := runOps carDecode botDid c c.ops
      { cursorFileWrite := some (toString c.seq), emitted := es, errors := errs,
        decodeCalls := n }

/-- Cursor-file content threaded across handler invocations: a commit
replaces the content, any other message leaves it unchanged. -/
def applyMessage (carDecode : CarDecoder) (botDid : String)
    (file : Option String) (msg : Message) : Option String :=
  match (onMessageHandler carDecode botDid msg).cursorFileWrite with
  | none => file
  | some s => some s

/-- Cursor-file content after a sequence of handler invocations. -/
def runMessages (carDecode : CarDecoder) (botDid : String)
    (file : Option String) (msgs : List Message) : Option String :=
  msgs.foldl (applyMessage carDecode botDid) file

/-- Decimal digits to a natural number; `none` when the list is empty or
contains a non-digit, mirroring when Python `int()` raises ValueError. -/
def digitsToNat : List Char → Option Nat
  | [] => none
  | l => l.foldl (fun acc c =>
      match acc with
      | none => none
      | some n => if c.isDigit then some (n * 10 + (c.toNat - 48)) else none)
      (some 0)

/-- Python `int(s)` on a stripped string, modelled for an optional sign
followed by decimal digits; `none` models ValueError. (Underscore grouping
and non-ASCII digits, which CPython also accepts, are omitted: no claim
depends on them.) -/
def pyParseInt (s : String) : Option Int :=
  match s.data with
  | '-' :: rest => (digitsToNat rest).map (fun n => -(n : Int))
  | '+' :: rest => (digitsToNat rest).map (fun n => (n : Int))
  | l => (digitsToNat l).map (fun n => (n : Int))

/-- Cursor loading at startup, src/firehose_monitor.py lines 31-42: `none`
as input models FileNotFoundError (no cursor file); otherwise the content
is stripped, an empty string leaves the cursor absent, and `int()` is
applied with ValueError caught and mapped to an absent cursor. -/
def loadCursor : Option String → Option Int
  | none => none
  | some content =>
      let v := pyStrip content
      if v = "" then none
      else pyParseInt v

/-- Subscription parameter construction, line 44: `params` carries the
cursor only when the loaded cursor is truthy (`if cursor else None`), so
both an absent cursor and a cursor equal to 0 yield no resume point. -/
def subscriptionParams (cursor : Option Int) : Option Int :=
  match cursor with
  | some c => if c ≠ 0 then some c else none
  | none => none

/-- The subscription phase of `main`, lines 146-150: `firehose.start` is
called exactly once inside a `try`; an exception is caught and logged and
`main` falls through, so the interpreter exits with code 0 either way.
Returns (number of start attempts, process exit code, stderr lines). -/
def runSubscription (startResult : Except String Unit) : Nat × Nat × List String :=
  match startResult with
  | .ok _ => (1, 0, [])
  | .error e => (1, 0, ["Firehose error: " ++ e])

/-- Qualification test of lines 57-61: the operation is a create on the
post collection. -/
def isPostCreate (op : Op) : Bool :=
  op.action == "create" && strStartsWith op.path "app.bsky.feed.post/"

def exBindOk {ε α β : Type} (a : α) (f : α → Except ε β) :
    (Except.ok a >>= f) = f a := rfl

def exBindErr {ε α β : Type} (e : ε) (f : α → Except ε β) :
    ((Except.error e : Except ε α) >>= f) = Except.error e := rfl

/-- Fixture: a record that is simultaneously a mention of the bot (facet
feature) and a reply to the bot (parent uri contains the bot DID). -/
def c1record : Val :=
  .obj [("text", .str "hi"),
        ("reply", .obj [("parent", .obj [("uri", .str "at://did:plc:bot/app.bsky.feed.post/xyz")])]),
        ("facets", .arr [.obj [("features", .arr [.obj
          [("$type", .str "app.bsky.richtext.facet#mention"), ("did", .str "did:plc:bot")]])]])]

/-- Fixture: the event the handler builds for `c1record`. -/
def c1event : Event :=
  { type := "firehose_mention"
    uri := "at://did:plc:alice/app.bsky.feed.post/abc"
    cid := "cidX"
    authorDid := "did:plc:alice"
    record := c1record
    reason := "mention" }

/-- Fixture: a decoder for an empty container. -/
def emptyDecode : CarDecoder := fun _ => .ok []

/-- Fixture: a commit envelope holding two create operations on the post
collection. -/
def twoOpsCommit : Commit :=
  { seq := 9
    repo := "did:plc:alice"
    ops := [{ action := "create", path := "app.bsky.feed.post/aaa", cid := "cidA" },
            { action := "create", path := "app.bsky.feed.post/bbb", cid := "cidB" }],
    blocks := [1, 2, 3] }

/-- Fixture: a commit envelope with sequence 7 and no operations. -/
def seq7Commit : Commit :=
  { seq := 7, repo := "did:plc:alice", ops := [], blocks := [] }

/-- Maximum sequence number of a list of commit envelopes. -/
def maxSeq (cs : List Commit) : Nat := (cs.map Commit.seq).foldl Nat.max 0

/-- Fixture: three commit envelopes with increasing sequence numbers. -/
def c6list : List Commit :=
  [{ seq := 1, repo := "did:plc:alice", ops := [], blocks := [] },
   { seq := 3, repo := "did:plc:alice", ops := [], blocks := [] },
   { seq := 7, repo := "did:plc:alice", ops := [], blocks := [] }]

/-- Fixture: a decoder whose container holds one record under a content id
no operation references. -/
def c9decode : CarDecoder := fun _ => .ok [("otherCid", .str "x")]

/-- Fixture: a commit envelope with one create-on-post operation whose
content id is absent from the container. -/
def c9commit : Commit :=
  { seq := 13
    repo := "did:plc:alice"
    ops := [{ action := "create", path := "app.bsky.feed.post/ccc", cid := "cidZ" }],
    blocks := [0] }

mutual
/-- Serialization always fails with the bytes TypeError on a value holding
a binary leaf, and always succeeds on a value holding none. -/
def dumpsSpec : ∀ v : Val,
    (v.hasBin = true → jsonDumps v = .error bytesErrMsg) ∧
    (v.hasBin = false → ∃ s, jsonDumps v = .ok s)
  | .null => ⟨fun h => by simp [Val.hasBin] at h, fun _ => ⟨"null", rfl⟩⟩
  | .bool true => ⟨fun h => by simp [Val.hasBin] at h, fun _ => ⟨"true", rfl⟩⟩
  | .bool false => ⟨fun h => by simp [Val.hasBin] at h, fun _ => ⟨"false", rfl⟩⟩
  | .num n => ⟨fun h => by simp [Val.hasBin] at h, fun _ => ⟨toString n, rfl⟩⟩
  | .str s => ⟨fun h => by simp [Val.hasBin] at h, fun _ => ⟨jsonQuote s, rfl⟩⟩
  | .bytes bs => ⟨fun _ => rfl, fun h => by simp [Val.hasBin] at h⟩
  | .arr l =>
      ⟨fun h => by
          have hl := (dumpsSpecList l).1 (by simpa [Val.hasBin] using h)
          simp [jsonDumps, hl, exBindErr],
       fun h => by
          obtain ⟨ss, hs⟩ := (dumpsSpecList l).2 (by simpa [Val.hasBin] using h)
          refine ⟨"[" ++ String.intercalate ", " ss ++ "]", ?_⟩
          simp [jsonDumps, hs, exBindOk]⟩
  | .obj kvs =>
      ⟨fun h => by
          have hl := (dumpsSpecObj kvs).1 (by simpa [Val.hasBin] using h)
          simp [jsonDumps, hl, exBindErr],
       fun h => by
          obtain ⟨ss, hs⟩ := (dumpsSpecObj kvs).2 (by simpa [Val.hasBin] using h)
          refine ⟨"\x7b" ++ String.intercalate ", " ss ++ "\x7d", ?_⟩
          simp [jsonDumps, hs, exBindOk]⟩

def dumpsSpecList : ∀ l : List Val,
    (hasBinList l = true → jsonDumpsList l = .error bytesErrMsg) ∧
    (hasBinList l = false → ∃ ss, jsonDumpsList l = .ok ss)
  | [] => ⟨fun h => by simp [hasBinList] at h, fun _ => ⟨[], rfl⟩⟩
  | v :: rest =>
      ⟨fun h => by
          rw [hasBinList] at h
          cases hv : v.hasBin with
          | true =>
              have hd := (dumpsSpec v).1 hv
              simp [jsonDumpsList, hd, exBindErr]
          | false =>
              rw [hv, Bool.false_or] at h
              obtain ⟨s, hs⟩ := (dumpsSpec v).2 hv
              have hr := (dumpsSpecList rest).1 h
              simp [jsonDumpsList, hs, hr, exBindOk, exBindErr],
       fun h => by
          rw [hasBinList, Bool.or_eq_false_iff] at h
          obtain ⟨s, hs⟩ := (dumpsSpec v).2 h.1
          obtain ⟨ss, hss⟩ := (dumpsSpecList rest).2 h.2
          refine ⟨s :: ss, ?_⟩
          simp [jsonDumpsList, hs, hss, exBindOk]⟩

def dumpsSpecObj : ∀ kvs : List (String × Val),
    (hasBinObj kvs = true → jsonDumpsObj kvs = .error bytesErrMsg) ∧
    (hasBinObj kvs = false → ∃ ss, jsonDumpsObj kvs = .ok ss)
  | [] => ⟨fun h => by simp [hasBinObj] at h, fun _ => ⟨[], rfl⟩⟩
  | kv :: rest =>
      ⟨fun h => by
          rw [hasBinObj] at h
          cases hv : kv.2.hasBin with
          | true =>
              have hd := (dumpsSpec kv.2).1 hv
              simp [jsonDumpsObj, hd, exBindErr]
          | false =>
              rw [hv, Bool.false_or] at h
              obtain ⟨s, hs⟩ := (dumpsSpec kv.2).2 hv
              have hr := (dumpsSpecObj rest).1 h
              simp [jsonDumpsObj, hs, hr, exBindOk, exBindErr],
       fun h => by
          rw [hasBinObj, Bool.or_eq_false_iff] at h
          obtain ⟨s, hs⟩ := (dumpsSpec kv.2).2 h.1
          obtain ⟨ss, hss⟩ := (dumpsSpecObj rest).2 h.2
          refine ⟨(jsonQuote kv.1 ++ ": " ++ s) :: ss, ?_⟩
          simp [jsonDumpsObj, hs, hss, exBindOk]⟩
end

/-- Fixture: a record matching the reply rule that carries a binary leaf. -/
def bytesRecord : Val :=
  .obj [("reply", .obj [("parent", .obj [("uri", .str "at://did:plc:bot/app.bsky.feed.post/q")])]),
        ("payload", .bytes [0, 255])]

/-- Fixture: a decoder whose container maps "cidB" to `bytesRecord`. -/
def c7decode : CarDecoder := fun _ => .ok [("cidB", bytesRecord)]

/-- Fixture: a commit envelope with one create-on-post operation on
"cidB". -/
def c7commit : Commit :=
  { seq := 11
    repo := "did:plc:alice"
    ops := [{ action := "create", path := "app.bsky.feed.post/ddd", cid := "cidB" }],
    blocks := [2] }

/-- Claim C1: when a record satisfies both the mention condition and the
reply condition, the event the handler emits carries reason "mention",
never "reply" (fixed precedence mention over quote over reply, lines
120-127). -/
theorem classify_mention_over_reply (r : Val) (botDid repo path cid : String) (ev : Event)
    (hm : computeIsMention r botDid = .ok true)
    (hr : computeIsReply r botDid = .ok true)
    (hp : processRecord r botDid repo path cid = .ok (some ev)) :
    ev.reason = "mention" := by
  unfold processRecord at hp
  rw [hr, exBindOk, hm, exBindOk] at hp
  cases hq : computeIsQuote r botDid with
  | error e => rw [hq, exBindErr] at hp; exact absurd hp (by simp)
  | ok q =>
      rw [hq, exBindOk] at hp
      simp only [Bool.true_or, if_true, pure, Except.pure, Except.ok.injEq,
        Option.some.injEq] at hp
      subst hp
      rfl

/-- Claim C1, witness: `c1record` satisfies both conditions and the handler
classifies it with reason "mention". -/
theorem classify_mention_over_reply_witness :
    computeIsMention c1record "did:plc:bot" = .ok true ∧
    computeIsReply c1record "did:plc:bot" = .ok true ∧
    processRecord c1record "did:plc:bot" "did:plc:alice" "app.bsky.feed.post/abc" "cidX" =
      .ok (some c1event) ∧
    c1event.reason = "mention" :=
  ⟨rfl, rfl, rfl,
    classify_mention_over_reply c1record "did:plc:bot" "did:plc:alice" "app.bsky.feed.post/abc"
      "cidX" c1event rfl rfl rfl⟩

/-- The decode-call count of the operation loop equals the number of
qualifying create-on-post-collection operations: `CAR.from_bytes` runs once
for each of them (line 84 sits inside the loop). -/
theorem runOps_decodeCalls (carDecode : CarDecoder) (botDid : String) (c : Commit) :
    ∀ ops : List Op,
      (runOps carDecode botDid c ops).2.2 = (ops.filter isPostCreate).length := by
  intro ops
  induction ops with
  | nil => rfl
  | cons op rest ih =>
      by_cases h1 : op.action = "create"
      · by_cases h2 : strStartsWith op.path "app.bsky.feed.post/" = true
        · rcases hrest : runOps carDecode botDid c rest with ⟨es, errs, n⟩
          rw [hrest] at ih
          have ih2 : n = (rest.filter isPostCreate).length := ih
          have hq : isPostCreate op = true := by simp [isPostCreate, h1, h2]
          cases hp : processOp carDecode botDid c op with
          | error e =>
              simp [runOps, h1, h2, hrest, hp, List.filter_cons, hq, ih2]
          | ok o =>
              cases o with
              | none => simp [runOps, h1, h2, hrest, hp, List.filter_cons, hq, ih2]
              | some line => simp [runOps, h1, h2, hrest, hp, List.filter_cons, hq, ih2]
        · have hq : isPostCreate op = false := by
            simp only [Bool.not_eq_true] at h2
            simp [isPostCreate, h2]
          simp [runOps, h1, h2, List.filter_cons, hq, ih]
      · have hq : isPostCreate op = false := by simp [isPostCreate, h1]
        simp [runOps, h1, List.filter_cons, hq, ih]

/-- Claim C2, counterexample: an envelope with two create-on-post
operations decodes its block container twice, not once — `CAR.from_bytes`
is called inside the operation loop. -/
theorem decode_per_op_counterex :
    (onMessageHandler emptyDecode "did:plc:bot" (.commit twoOpsCommit)).decodeCalls = 2 ∧
    (onMessageHandler emptyDecode "did:plc:bot" (.commit twoOpsCommit)).decodeCalls ≠ 1 :=
  ⟨rfl, by decide⟩

/-- Claim C2, amended: the block container is decoded once per qualifying
create operation on the post collection — the decode count of an envelope
equals the number of such operations, so the decoded result is not cached
across operations. -/
theorem decode_calls_eq_qualifying_ops (carDecode : CarDecoder) (botDid : String) (c : Commit) :
    (onMessageHandler carDecode botDid (.commit c)).decodeCalls =
      (c.ops.filter isPostCreate).length := by
  rcases hops : runOps carDecode botDid c c.ops with ⟨es, errs, n⟩
  have h := runOps_decodeCalls carDecode botDid c c.ops
  rw [hops] at h
  simpa [onMessageHandler, hops] using h

/-- The commit branch of the handler always writes `str(commit.seq)` to the
cursor file (lines 52-54), before and regardless of operation processing. -/
theorem handlerCursorWrite (carDecode : CarDecoder) (botDid : String) (c : Commit) :
    (onMessageHandler carDecode botDid (.commit c)).cursorFileWrite =
      some (toString c.seq) := by
  rcases hops : runOps carDecode botDid c c.ops with ⟨es, errs, n⟩
  simp [onMessageHandler, hops]

/-- Claim C3, counterexample: processing one single commit envelope writes
the checkpoint file (content "7"), so persistence is not restricted to
periodic flushes and shutdown. -/
theorem flush_on_single_commit_counterex :
    (onMessageHandler emptyDecode "did:plc:bot" (.commit seq7Commit)).cursorFileWrite =
      some "7" ∧
    (onMessageHandler emptyDecode "did:plc:bot" (.commit seq7Commit)).cursorFileWrite ≠
      none := ⟨rfl, by decide⟩

/-- Claim C3, amended: the cursor is persisted to the checkpoint file
synchronously on every single commit envelope — the handler overwrites the
file with the commit's sequence number each time; there is no periodic
flush task. -/
theorem cursor_flushed_every_commit (carDecode : CarDecoder) (botDid : String) (c : Commit) :
    (onMessageHandler carDecode botDid (.commit c)).cursorFileWrite =
      some (toString c.seq) :=
  handlerCursorWrite carDecode botDid c

/-- Claim C4, counterexample: a checkpoint file containing "0" loads as
cursor 0, but the subscription parameters carry no resume point — `if
cursor` (line 44) is false for 0, so the stream starts from the live tail
instead of resume point 0. -/
theorem zero_cursor_not_resumed_counterex :
    loadCursor (some "0") = some 0 ∧
    subscriptionParams (loadCursor (some "0")) = none :=
  ⟨rfl, rfl⟩

/-- Claim C4, amended: for every saved cursor value C that is positive, the
subscription is requested with resume point C; a saved value of 0 loads but
is treated as absent (line 44 tests Python truthiness, not presence). -/
theorem positive_cursor_resumed (file : Option String) (c : Int)
    (hload : loadCursor file = some c) (hpos : 0 < c) :
    subscriptionParams (loadCursor file) = some c := by
  rw [hload]
  have hne : c ≠ 0 := by omega
  simp [subscriptionParams, hne]

/-- Claim C4, witness: a checkpoint file containing "42" yields resume
point 42. -/
theorem positive_cursor_resumed_witness :
    loadCursor (some "42") = some 42 ∧ (0 : Int) < 42 ∧
    subscriptionParams (loadCursor (some "42")) = some 42 :=
  ⟨rfl, by decide, positive_cursor_resumed (some "42") 42 rfl (by decide)⟩

/-- Claim C5, counterexample: a checkpoint file containing "-5" does not
load as absent — `int("-5")` succeeds, so the negative value -5 is returned
as the cursor. -/
theorem negative_cursor_loaded_counterex :
    loadCursor (some "-5") = some (-5) ∧ loadCursor (some "-5") ≠ none :=
  ⟨rfl, by decide⟩

/-- Claim C5, amended: checkpoint load returns absent (and never raises to
the caller, both FileNotFoundError and ValueError being caught) whenever
the file is missing, its content strips to the empty string, or its content
is not a valid signed integer literal; a negative integer literal, however,
parses and is returned as the cursor rather than treated as absent. -/
theorem load_absent_on_missing_or_invalid (file : Option String)
    (h : file = none ∨ ∃ s, file = some s ∧ (pyStrip s = "" ∨ pyParseInt (pyStrip s) = none)) :
    loadCursor file = none := by
  rcases h with h | ⟨s, hs, h⟩
  · rw [h]; rfl
  · subst hs
    rcases h with h | h
    · simp [loadCursor, h]
    · by_cases he : pyStrip s = ""
      · simp [loadCursor, he]
      · simp [loadCursor, he, h]

/-- Claim C5, witness: non-numeric content loads as absent. -/
theorem load_absent_on_missing_or_invalid_witness :
    (some "garbage" = (none : Option String) ∨
      ∃ s, (some "garbage" = some s ∧
        (pyStrip s = "" ∨ pyParseInt (pyStrip s) = none))) ∧
    loadCursor (some "garbage") = none :=
  ⟨Or.inr ⟨"garbage", rfl, Or.inr rfl⟩,
    load_absent_on_missing_or_invalid (some "garbage")
      (Or.inr ⟨"garbage", rfl, Or.inr rfl⟩)⟩

/-- Claim C8, counterexample: when the subscription fails, the process
exits with code 0 (the exception is caught, logged, and `main` returns),
not non-zero, and only one start attempt is ever made. -/
theorem stream_error_exit_zero_counterex :
    runSubscription (.error "connection closed") =
      (1, 0, ["Firehose error: connection closed"]) ∧
    (runSubscription (.error "connection closed")).2.1 = 0 :=
  ⟨rfl, rfl⟩

/-- Claim C8, amended: on a subscription error the failure is logged and
the process exits with code 0 after exactly one start attempt — no
reconnect is attempted and no non-zero exit occurs. -/
theorem stream_error_single_attempt_exit_zero (e : String) :
    runSubscription (.error e) = (1, 0, ["Firehose error: " ++ e]) := rfl

/-- Claim C10: a message that does not parse as a commit envelope makes the
handler return before any side effect — no cursor-file write, no emitted
line, no logged error, no container decode. -/
theorem non_commit_no_side_effect (carDecode : CarDecoder) (botDid : String) :
    onMessageHandler carDecode botDid .other =
      { cursorFileWrite := none, emitted := [], errors := [], decodeCalls := 0 } := rfl

/-- Folding `Nat.max` over a non-decreasing list starting at its head
yields the last element. -/
theorem foldlMax_chain : ∀ (xs : List Nat) (x : Nat),
    List.Chain' (fun a b => a ≤ b) (x :: xs) →
    xs.foldl Nat.max x = (x :: xs).getLastD 0 := by
  intro xs
  induction xs with
  | nil => intro x _; rfl
  | cons y ys ih =>
      intro x hch
      rw [List.chain'_cons] at hch
      have h1 : Nat.max x y = y := Nat.max_eq_right hch.1
      have h2 := ih y hch.2
      simp only [List.foldl, h1, List.getLastD_cons] at h2 ⊢
      exact h2

/-- After a non-empty run of commit envelopes the cursor file holds the
sequence number of the last envelope processed. -/
theorem runMessages_commits (carDecode : CarDecoder) (botDid : String) :
    ∀ (cs : List Commit) (file0 : Option String), cs ≠ [] →
      runMessages carDecode botDid file0 (cs.map Message.commit) =
        some (toString ((cs.map Commit.seq).getLastD 0)) := by
  intro cs
  induction cs with
  | nil => intro file0 h; exact absurd rfl h
  | cons c rest ih =>
      intro file0 _
      cases rest with
      | nil =>
          simp [runMessages, applyMessage, handlerCursorWrite]
      | cons d rest2 =>
          have h2 := ih (applyMessage carDecode botDid file0 (.commit c)) (by simp)
          simp only [List.map_cons, runMessages, List.foldl_cons] at h2 ⊢
          rw [h2]
          simp [List.getLastD_cons]

/-- Claim C6: for every sequence of processed commit envelopes whose
sequence numbers arrive non-decreasing (the upstream tags envelopes with
strictly increasing numbers), the persisted cursor after processing equals
the maximum sequence number seen so far, for every decoder — i.e.
regardless of decode or classification outcomes. -/
theorem cursor_eq_max_seq (carDecode : CarDecoder) (botDid : String)
    (file0 : Option String) (cs : List Commit) (hne : cs ≠ [])
    (hmono : List.Chain' (fun a b => a ≤ b) (cs.map Commit.seq)) :
    runMessages carDecode botDid file0 (cs.map Message.commit) =
      some (toString (maxSeq cs)) := by
  cases cs with
  | nil => exact absurd rfl hne
  | cons c rest =>
      rw [runMessages_commits carDecode botDid (c :: rest) file0 (by simp)]
      simp only [List.map_cons] at hmono ⊢
      rw [maxSeq]
      simp only [List.map_cons, List.foldl_cons]
      have hm : Nat.max 0 c.seq = c.seq := by simp [Nat.max_def]
      rw [hm, foldlMax_chain (rest.map Commit.seq) c.seq hmono]

/-- Claim C6, witness: after envelopes with sequences 1, 3, 7 the cursor
file holds "7", the maximum. -/
theorem cursor_eq_max_seq_witness :
    c6list ≠ [] ∧
    List.Chain' (fun a b => a ≤ b) (c6list.map Commit.seq) ∧
    runMessages emptyDecode "did:plc:bot" none (c6list.map Message.commit) =
      some (toString (maxSeq c6list)) :=
  ⟨by simp [c6list], by simp [c6list, List.chain'_cons],
    cursor_eq_max_seq emptyDecode "did:plc:bot" none c6list (by simp [c6list])
      (by simp [c6list, List.chain'_cons])⟩

/-- Operation loop under a decodable container all of whose lookups miss:
nothing is emitted and nothing is logged. -/
theorem runOps_skip (carDecode : CarDecoder) (botDid : String) (c : Commit)
    (blockMap : List (String × Val)) (hdec : carDecode c.blocks = .ok blockMap) :
    ∀ ops : List Op, (∀ op ∈ ops, assocGet blockMap op.cid = none) →
      (runOps carDecode botDid c ops).1 = [] ∧ (runOps carDecode botDid c ops).2.1 = [] := by
  intro ops
  induction ops with
  | nil => intro _; exact ⟨rfl, rfl⟩
  | cons op rest ih =>
      intro habs
      have hrest := ih (fun o ho => habs o (List.mem_cons_of_mem op ho))
      have hcid : assocGet blockMap op.cid = none := habs op (List.mem_cons_self op rest)
      by_cases h1 : op.action = "create"
      · by_cases h2 : strStartsWith op.path "app.bsky.feed.post/" = true
        · have hp : processOp carDecode botDid c op = .ok none := by
            unfold processOp
            rw [hdec, exBindOk, hcid]
            rfl
          rcases hr : runOps carDecode botDid c rest with ⟨es, errs, n⟩
          rw [hr] at hrest
          simp only at hrest
          simp [runOps, h1, h2, hr, hp, hrest.1, hrest.2]
        · simpa [runOps, h1, h2] using hrest
      · simpa [runOps, h1] using hrest

/-- Claim C9: when every operation of a commit envelope references a
content id absent from the decoded container, no event is emitted, no
error is logged (the operations are skipped silently), and the cursor file
still advances to the envelope's sequence number. -/
theorem absent_cid_skipped (carDecode : CarDecoder) (botDid : String) (c : Commit)
    (blockMap : List (String × Val)) (hdec : carDecode c.blocks = .ok blockMap)
    (habs : ∀ op ∈ c.ops, assocGet blockMap op.cid = none) :
    (onMessageHandler carDecode botDid (.commit c)).emitted = [] ∧
    (onMessageHandler carDecode botDid (.commit c)).errors = [] ∧
    (onMessageHandler carDecode botDid (.commit c)).cursorFileWrite =
      some (toString c.seq) := by
  have h := runOps_skip carDecode botDid c blockMap hdec c.ops habs
  rcases hr : runOps carDecode botDid c c.ops with ⟨es, errs, n⟩
  rw [hr] at h
  simp only at h
  refine ⟨?_, ?_, handlerCursorWrite carDecode botDid c⟩ <;>
    simp [onMessageHandler, hr, h.1, h.2]

/-- Claim C9, witness: the operation referencing the absent content id is
skipped with no emission and no error while the cursor file is written. -/
theorem absent_cid_skipped_witness :
    (onMessageHandler c9decode "did:plc:bot" (.commit c9commit)).emitted = [] ∧
    (onMessageHandler c9decode "did:plc:bot" (.commit c9commit)).errors = [] ∧
    (onMessageHandler c9decode "did:plc:bot" (.commit c9commit)).cursorFileWrite =
      some "13" :=
  absent_cid_skipped c9decode "did:plc:bot" c9commit [("otherCid", .str "x")] rfl
    (fun op hop => by rcases List.mem_singleton.mp hop with rfl; rfl)
/-- The event built for a record carries that record unchanged (lines
130-140 store `record_raw` itself under the "record" key). -/
theorem processRecord_record (r : Val) (b repo path cid : String) (ev : Event)
    (hp : processRecord r b repo path cid = .ok (some ev)) : ev.record = r := by
  unfold processRecord at hp
  cases h1 : computeIsReply r b with
  | error e => rw [h1, exBindErr] at hp; exact absurd hp (by simp)
  | ok b1 =>
      rw [h1, exBindOk] at hp
      cases h2 : computeIsMention r b with
      | error e => rw [h2, exBindErr] at hp; exact absurd hp (by simp)
      | ok b2 =>
          rw [h2, exBindOk] at hp
          cases h3 : computeIsQuote r b with
          | error e => rw [h3, exBindErr] at hp; exact absurd hp (by simp)
          | ok b3 =>
              rw [h3, exBindOk] at hp
              by_cases hc : (b1 || b2 || b3) = true
              · simp only [hc, if_true, pure, Except.pure, Except.ok.injEq,
                  Option.some.injEq] at hp
                subst hp; rfl
              · simp only [Bool.not_eq_true] at hc
                simp [hc, pure, Except.pure] at hp

/-- Claim C7, amended: a matched record containing a binary leaf is never
serialized to an output line — `json.dumps` raises TypeError instead of
converting the binary to text or hexadecimal, so processing the operation
produces no emitted line (the error is caught and logged by the handler). -/
theorem binary_record_never_serialized (carDecode : CarDecoder) (botDid : String)
    (c : Commit) (op : Op) (blockMap : List (String × Val)) (r : Val)
    (hdec : carDecode c.blocks = .ok blockMap)
    (hcid : assocGet blockMap op.cid = some r)
    (hbin : r.hasBin = true) :
    ∀ line : String, processOp carDecode botDid c op ≠ .ok (some line) := by
  intro line hline
  unfold processOp at hline
  rw [hdec, exBindOk, hcid] at hline
  simp only [Option.getD_some] at hline
  by_cases ht : r.truthy = true
  · rw [ht] at hline
    simp only [Bool.not_true, Bool.false_eq_true, if_false] at hline
    cases hq : processRecord r botDid c.repo op.path op.cid with
    | error e => rw [hq, exBindErr] at hline; exact absurd hline (by simp)
    | ok ev? =>
        rw [hq, exBindOk] at hline
        cases ev? with
        | none => simp [pure, Except.pure] at hline
        | some ev =>
            have hrec : ev.record = r := processRecord_record r botDid c.repo op.path op.cid ev hq
            have hb : (eventToVal ev).hasBin = true := by
              simp [eventToVal, Val.hasBin, hasBinObj, hasBinList, hrec, hbin]
            have hd := (dumpsSpec (eventToVal ev)).1 hb
            have hline2 : (jsonDumps (eventToVal ev) >>= fun l => pure (some l)) =
                Except.ok (some line) := hline
            rw [hd, exBindErr] at hline2
            exact absurd hline2 (by simp)
  · simp only [Bool.not_eq_true] at ht
    rw [ht] at hline
    simp [pure, Except.pure] at hline

/-- Claim C7, counterexample: a matched record containing a binary leaf
yields no emitted line at all — instead of a textual/hexadecimal conversion
the serialization raises, the handler logs the TypeError, and the emitted
output stays empty. -/
theorem binary_not_emitted_counterex :
    (onMessageHandler c7decode "did:plc:bot" (.commit c7commit)).emitted = [] ∧
    (onMessageHandler c7decode "did:plc:bot" (.commit c7commit)).errors =
      ["Error processing firehose event: " ++ bytesErrMsg] := ⟨rfl, rfl⟩

/-- Claim C7, witness: the amended theorem applied at the binary-leaf
fixture. -/
theorem binary_record_never_serialized_witness :
    c7decode c7commit.blocks = .ok [("cidB", bytesRecord)] ∧
    assocGet [("cidB", bytesRecord)] "cidB" = some bytesRecord ∧
    bytesRecord.hasBin = true ∧
    processOp c7decode "did:plc:bot" c7commit
        { action := "create", path := "app.bsky.feed.post/ddd", cid := "cidB" } ≠
      .ok (some "anything") :=
  ⟨rfl, rfl, rfl,
    binary_record_never_serialized c7decode "did:plc:bot" c7commit
      { action := "create", path := "app.bsky.feed.post/ddd", cid := "cidB" }
      [("cidB", bytesRecord)] bytesRecord rfl rfl rfl "anything"⟩
